import Mathlib

/-!
Shallow embedding of the orchestration control plane of the ai-dev-platform
repository: the Express/WebSocket server in `src/unnamed/part_007` (main
server, `DevPodManager`) and `src/backend/server-simple.js` (simple server,
`SimpleDevPodManager`).  The two servers share character-identical chat
dispatch logic (`executeInWorkspace`, the chat endpoint, the WebSocket
handler, the create-endpoint input validation); definitions below model that
shared code once and note where the servers differ (the `/health` bodies).

External effects (`execAsync` of a shell command, `JSON.parse` of its stdout,
the Octokit repository-creation call) are modelled as explicit outcome
parameters: each definition takes the collaborator's outcome as an argument
and returns both the server's visible result and the list of external
invocations it performed.
-/

namespace AIDev

/-- Minimal JSON value model for the payloads the server builds, parses and
returns via `res.json` / `ws.send(JSON.stringify ...)`. -/
inductive JVal where
  | null
  | bool (b : Bool)
  | num (n : Int)
  | str (s : String)
  | arr (elems : List JVal)
  | obj (fields : List (String × JVal))

/-- Field lookup where the last binding wins, matching a JavaScript object
literal in which later keys (e.g. contributed by a spread) override earlier
ones. -/
def lookupLast : List (String × JVal) → String → Option JVal
  | [], _ => none
  | (k', v) :: rest, k =>
    match lookupLast rest k with
    | some v' => some v'
    | none => if k' = k then some v else none

/-- Property access `o[k]`: `undefined` (`none`) on a non-object or a missing
key. -/
def JVal.getField : JVal → String → Option JVal
  | .obj fs, k => lookupLast fs k
  | _, _ => none

/-- JavaScript truthiness of an accessed field: `undefined`, `null`, `false`,
`0` and `""` are falsy, everything else is truthy. -/
def jsTruthyField : Option JVal → Bool
  | none => false
  | some .null => false
  | some (.bool b) => b
  | some (.num n) => n != 0
  | some (.str s) => !s.isEmpty
  | some (.arr _) => true
  | some (.obj _) => true

/-- JavaScript falsiness of an optional string request-body field: an absent
field (`undefined`) and the empty string are falsy. -/
def jsFalsy : Option String → Bool
  | none => true
  | some s => s.isEmpty

/-- Decimal digit characters of `n`, most significant first, with `fuel`
bounding the recursion depth.  Models JavaScript's base-10 conversion of a
nonnegative integer (the `${Date.now()}` interpolation). -/
def natDigitsAux : Nat → Nat → List Char
  | 0, _ => []
  | fuel + 1, n =>
    if n < 10 then [Nat.digitChar n]
    else natDigitsAux fuel (n / 10) ++ [Nat.digitChar (n % 10)]

/-- Decimal digit characters of `n` (fuel `n + 1` always suffices since the
argument strictly decreases). -/
def natDigits (n : Nat) : List Char := natDigitsAux (n + 1) n

/-- JavaScript number-to-string on a nonnegative integer. -/
def jsNumberToString (n : Nat) : String := String.mk (natDigits n)

/-- The workspace id the create endpoint generates:
`` `workspace-${userId}-${Date.now()}` ``. -/
def genWorkspaceId (userId : String) (nowMs : Nat) : String :=
  "workspace-" ++ userId ++ "-" ++ jsNumberToString nowMs

/-- Outcome of one `execAsync` invocation: resolved stdout, or a rejection
(non-zero exit, timeout, buffer overflow) carrying `error.message`. -/
inductive ExecResult where
  | ok (stdout : String)
  | err (message : String)

/-- Combined outcome of running the chat command and `JSON.parse`-ing its
stdout: a parsed JSON value, or a failure (non-zero exit, timeout, or
unparseable stdout) carrying the thrown error's message. -/
inductive ChatExec where
  | parsed (v : JVal)
  | failed (errMessage : String)

/-- `message.replace(/'/g, "'\\''")` restricted to one character: a single
quote becomes the four characters `'\''`; every other character is kept. -/
def escapeQuoteChar (c : Char) : List Char :=
  if c = '\'' then ['\'', '\\', '\'', '\''] else [c]

/-- The escaped message: every single quote replaced by `'\''`. -/
def escapeMessage (m : String) : String :=
  String.mk (m.data.map escapeQuoteChar).flatten

/-- The shell command `executeInWorkspace` passes to `execAsync`. -/
def chatCommand (workspaceId message : String) : String :=
  "devpod ssh " ++ workspaceId ++
    " --command \"cd /workspace && python3 .devcontainer/claude-handler.py '" ++
    escapeMessage message ++ "'\""

/-- The canned user-facing text returned on dispatch failure. -/
def cannedErrorResponse : String := "I encountered an error processing your request."

/-- `DevPodManager.executeInWorkspace` (identical in
`SimpleDevPodManager`): builds the `devpod ssh` command, runs it, and returns
the parsed stdout; any failure is caught and turned into the object
`{success:false, error:error.message, response:<canned text>}`.  Returns the
command string given to `execAsync` together with the value returned to the
caller. -/
def executeInWorkspace (workspaceId message : String) (ex : ChatExec) :
    String × JVal :=
  (chatCommand workspaceId message,
   match ex with
   | .parsed v => v
   | .failed e =>
     .obj [("success", .bool false), ("error", .str e),
           ("response", .str cannedErrorResponse)])

/-- An HTTP response: the transport status code and the JSON body sent with
`res.json` (Express defaults the status to 200 unless `res.status` is
called). -/
structure HttpResponse where
  status : Nat
  body : JVal

/-- The 400 response of the chat endpoint when the `message` body field is
falsy. -/
def badRequestMissingMessage : HttpResponse :=
  { status := 400,
    body := .obj [("success", .bool false),
                  ("error", .str "Missing required field: message")] }

/-- `POST /api/workspaces/:workspaceId/chat` (identical in both servers):
validates that `message` is present (truthy), dispatches via
`executeInWorkspace`, and answers `res.json(result)`.  `message` is the
request-body field (`none` = absent).  Returns the HTTP response and the
list of commands passed to the external exec collaborator, in order.
(`executeInWorkspace` catches every internal error, so for a string message
the endpoint's own catch clause is unreachable.) -/
def chatEndpoint (workspaceId : String) (message : Option String)
    (ex : ChatExec) : HttpResponse × List String :=
  if jsFalsy message then (badRequestMissingMessage, [])
  else
    let (cmd, result) := executeInWorkspace workspaceId (message.getD "") ex
    ({ status := 200, body := result }, [cmd])

/-- One inbound WebSocket frame after `JSON.parse` and destructuring: a
well-formed chat request (`type:"chat"` with string `workspaceId` and
`message`), some other parsed message (ignored by the handler), or input on
which `JSON.parse`/destructuring throws, carrying the error's message. -/
inductive WsData where
  | chat (workspaceId message : String)
  | other
  | malformed (errMessage : String)

/-- One outbound WebSocket frame, i.e. the object passed to
`ws.send(JSON.stringify ...)`.  The `response` frame models
`{type:'response', ...result, timestamp}`: it carries the dispatch result
payload and the timestamp. -/
inductive WsOut where
  | typing (status : Bool)
  | response (payload : JVal) (timestamp : String)
  | error (errMessage : String)

/-- The `wss.on('message')` handler (identical in both servers): returns the
frames sent, in order, and the external commands run. -/
def wsMessageHandler (d : WsData) (ex : ChatExec) (timestamp : String) :
    List WsOut × List String :=
  match d with
  | .malformed e => ([.error e], [])
  | .other => ([], [])
  | .chat wid msg =>
    let (cmd, result) := executeInWorkspace wid msg ex
    ([.typing true, .response result timestamp, .typing false], [cmd])

/-- The `devpod up` command built by `DevPodManager.createWorkspace`. -/
def devpodUpCommand (workspaceId repoUrl : String) : String :=
  "devpod up " ++ repoUrl ++ " --id " ++ workspaceId ++ " --provider docker"

/-- `DevPodManager.createWorkspace`: runs `devpod up`; on success returns
`{success:true, workspaceId, status:'created', output}`, on failure the
caught `{success:false, error}`.  Returns the command given to `execAsync`
and the result object. -/
def DevPodManager.createWorkspace (workspaceId repoUrl : String)
    (outcome : ExecResult) : String × JVal :=
  (devpodUpCommand workspaceId repoUrl,
   match outcome with
   | .ok stdout =>
     .obj [("success", .bool true), ("workspaceId", .str workspaceId),
           ("status", .str "created"), ("output", .str stdout)]
   | .err m => .obj [("success", .bool false), ("error", .str m)])

/-- Outcome of `octokit.repos.createUsingTemplate`: resolves with the new
repository's urls, or rejects with an error message. -/
inductive RepoOutcome where
  | ok (htmlUrl cloneUrl : String)
  | err (message : String)

/-- One external side-effecting invocation made by the create endpoint. -/
inductive ExtCall where
  | githubCreateRepo (name : String)
  | exec (command : String)

/-- Extracts the `error` field as the message of `new Error(workspace.error)`
(a string field in every failure object the manager produces). -/
def errorFieldMessage (v : JVal) : String :=
  match v.getField "error" with
  | some (.str m) => m
  | _ => ""

/-- `POST /api/workspaces/create` on the main server: validates the body
(falsy `userId` or `projectName` is answered 400 before any external call),
generates `workspace-${userId}-${Date.now()}`, creates the GitHub repository
from the template, then the DevPod workspace; if the latter reports
`success:false` the endpoint throws `new Error(workspace.error)`, answered
by its catch clause with a 500.  Returns the HTTP response and the external
calls made, in order.  No registry or workspace record is kept anywhere. -/
def createEndpoint (userId projectName : Option String) (nowMs : Nat)
    (repo : RepoOutcome) (containerExec : ExecResult) :
    HttpResponse × List ExtCall :=
  if jsFalsy userId || jsFalsy projectName then
    ({ status := 400,
       body := .obj [("success", .bool false),
                     ("error", .str "Missing required fields: userId and projectName")] },
     [])
  else
    let workspaceId := genWorkspaceId (userId.getD "") nowMs
    match repo with
    | .err m =>
      ({ status := 500,
         body := .obj [("success", .bool false), ("error", .str m)] },
       [.githubCreateRepo workspaceId])
    | .ok htmlUrl cloneUrl =>
      let (cmd, workspace) :=
        DevPodManager.createWorkspace workspaceId cloneUrl containerExec
      if jsTruthyField (workspace.getField "success") then
        ({ status := 200,
           body := .obj [("success", .bool true),
                         ("workspaceId", .str workspaceId),
                         ("repositoryUrl", .str htmlUrl),
                         ("cloneUrl", .str cloneUrl),
                         ("workspace", workspace)] },
         [.githubCreateRepo workspaceId, .exec cmd])
      else
        ({ status := 500,
           body := .obj [("success", .bool false),
                         ("error", .str (errorFieldMessage workspace))] },
         [.githubCreateRepo workspaceId, .exec cmd])

/-- Combined outcome of `devpod list --output json` plus `JSON.parse`: an
array of JSON values, or a failure (exec error, unparseable stdout, or a
parsed non-array on which `.find` throws) carrying the error's message. -/
inductive ListOutcome where
  | arr (workspaces : List JVal)
  | failed (errMessage : String)

/-- The predicate of `workspaces.find(w => w.id === workspaceId)`: strict
equality, so a missing or non-string `id` never matches.  (Elements are
taken to be JSON values on which property access is defined.) -/
def idMatches (workspaceId : String) (w : JVal) : Bool :=
  match w.getField "id" with
  | some (.str s) => s == workspaceId
  | _ => false

/-- `DevPodManager.getWorkspaceStatus`: lists workspaces and returns the
matching entry, `{status:'not_found'}` when absent, or the caught
`{status:'error', error}` on failure. -/
def getWorkspaceStatus (workspaceId : String) (out : ListOutcome) : JVal :=
  match out with
  | .arr ws =>
    match ws.find? (idMatches workspaceId) with
    | some w => w
    | none => .obj [("status", .str "not_found")]
  | .failed e => .obj [("status", .str "error"), ("error", .str e)]

/-- `GET /api/workspaces/:workspaceId/status` on the main server: answers
`res.json(status)` — always a 200, since `getWorkspaceStatus` catches every
failure internally and the endpoint's own catch clause is unreachable. -/
def statusEndpoint (workspaceId : String) (out : ListOutcome) : HttpResponse :=
  { status := 200, body := getWorkspaceStatus workspaceId out }

/-- `GET /health` on the main server (`part_007`): note the status text is
`'healthy'`. -/
def healthEndpoint (timestamp : String) : HttpResponse :=
  { status := 200,
    body := .obj [("status", .str "healthy"), ("timestamp", .str timestamp)] }

/-- `GET /health` on the simple server (`server-simple.js`): status text
`'ok'`. -/
def healthEndpointSimple (timestamp : String) : HttpResponse :=
  { status := 200,
    body := .obj [("status", .str "ok"), ("timestamp", .str timestamp)] }

/-- One workspace-creation call as observed by the server: `seq`
distinguishes distinct calls (arrival order), `userId` is the request's
user, `nowMs` the value of `Date.now()` observed during the call. -/
structure CreateCall where
  seq : Nat
  userId : String
  nowMs : Nat
deriving DecidableEq

/-- The workspace id a creation call generates — a function of the user id
and the observed millisecond only; `seq` does not enter. -/
def CreateCall.workspaceId (c : CreateCall) : String :=
  genWorkspaceId c.userId c.nowMs

/-- State of a POSIX-style shell scan of one word: outside quotes, inside
single quotes, or just after an unquoted backslash. -/
inductive ScanMode where
  | plain
  | quoted
  | escaped
deriving DecidableEq

/-- POSIX-style scan of one shell word, as the shell reads the single-quoted
handler argument: outside quotes a backslash escapes the next character and
a single quote enters quoted mode; inside single quotes every character is
literal until the closing quote.  Returns the characters the word denotes,
or `none` on an unterminated quote or trailing backslash. -/
def parseWord : ScanMode → List Char → Option (List Char)
  | .quoted, [] => none
  | .quoted, c :: rest =>
    if c = '\'' then parseWord .plain rest
    else (parseWord .quoted rest).map (c :: ·)
  | .plain, [] => some []
  | .plain, c :: rest =>
    if c = '\\' then parseWord .escaped rest
    else if c = '\'' then parseWord .quoted rest
    else (parseWord .plain rest).map (c :: ·)
  | .escaped, [] => none
  | .escaped, d :: rest => (parseWord .plain rest).map (d :: ·)

/-- The number denoted by a list of decimal digit characters (used to show
that JavaScript's decimal rendering of `Date.now()` is injective). -/
def digitsVal (l : List Char) : Nat :=
  l.foldl (fun a c => 10 * a + (c.toNat - 48)) 0

/-! ### Supporting lemmas -/

theorem digitsVal_append (l : List Char) (c : Char) :
    digitsVal (l ++ [c]) = 10 * digitsVal l + (c.toNat - 48) := by
  simp [digitsVal, List.foldl_append]

theorem digitChar_val (d : Nat) (h : d < 10) :
    (Nat.digitChar d).toNat - 48 = d := by
  interval_cases d <;> rfl

theorem digitsVal_natDigitsAux (fuel : Nat) : ∀ n, n < fuel →
    digitsVal (natDigitsAux fuel n) = n := by
  induction fuel with
  | zero => intro n h; omega
  | succ f ih =>
    intro n h
    by_cases h10 : n < 10
    · simp [natDigitsAux, h10, digitsVal, digitChar_val n h10]
    · have hdiv : n / 10 < n := Nat.div_lt_self (by omega) (by omega)
      simp [natDigitsAux, h10, digitsVal_append, ih (n / 10) (by omega),
        digitChar_val (n % 10) (Nat.mod_lt _ (by omega))]
      omega

theorem natDigits_val (n : Nat) : digitsVal (natDigits n) = n :=
  digitsVal_natDigitsAux (n + 1) n (Nat.lt_succ_self n)

theorem jsNumberToString_inj {a b : Nat}
    (h : jsNumberToString a = jsNumberToString b) : a = b := by
  simp only [jsNumberToString] at h
  have h' : natDigits a = natDigits b := by injection h
  have h2 := congrArg digitsVal h'
  rwa [natDigits_val, natDigits_val] at h2

theorem isEmpty_false_of_ne {s : String} (h : s ≠ "") : s.isEmpty = false := by
  rw [Bool.eq_false_iff]
  intro he
  exact h ((String.isEmpty_iff s).mp he)

theorem parseWord_escape_inside (m : List Char) :
    parseWord .quoted ((m.map escapeQuoteChar).flatten ++ ['\'']) = some m := by
  induction m with
  | nil => rfl
  | cons c m ih =>
    by_cases hc : c = '\''
    · subst hc
      simp [escapeQuoteChar, parseWord, ih]
    · simp [escapeQuoteChar, hc, parseWord, ih]

theorem parseWord_quoted_escape (m : List Char) :
    parseWord .plain ('\'' :: ((m.map escapeQuoteChar).flatten ++ ['\''])) =
      some m := by
  simp [parseWord, parseWord_escape_inside m]

/-! ### Claim theorems -/

/-- C1 counterexample: the server keeps no workspace registry and the chat
endpoint performs no readiness check.  Dispatching against the id
"workspace-ghost" — for which no record exists, so certainly no record in
the `ready` state — still runs a `devpod ssh` command (the external
command-execution collaborator is invoked) and the endpoint answers at
status 200 rather than failing with a NotReadyError. -/
theorem c1_counterexample :
    (chatEndpoint "workspace-ghost" (some "hello")
        (.failed "ssh: connection refused")).2 ≠ [] ∧
    (chatEndpoint "workspace-ghost" (some "hello")
        (.failed "ssh: connection refused")).1.status = 200 := by
  constructor
  · decide
  · rfl

/-- C1 (amended): the chat endpoint performs no workspace-state check.  For
every dispatch with a non-empty message it runs the `devpod ssh` command
exactly once, whatever the workspace's state, and answers at transport
status 200; no NotReadyError path exists in the code. -/
theorem c1_amended_no_ready_check (wid m : String) (ex : ChatExec)
    (h : m ≠ "") :
    (chatEndpoint wid (some m) ex).2 = [chatCommand wid m] ∧
    (chatEndpoint wid (some m) ex).1.status = 200 := by
  have hempty : m.isEmpty = false := isEmpty_false_of_ne h
  constructor <;> simp [chatEndpoint, jsFalsy, hempty, executeInWorkspace]

/-- C1 witness: a concrete dispatch exercising the amended claim. -/
theorem c1_amended_witness :
    (chatEndpoint "ws-2" (some "hi") (.parsed .null)).2 =
      [chatCommand "ws-2" "hi"] ∧
    (chatEndpoint "ws-2" (some "hi") (.parsed .null)).1.status = 200 :=
  c1_amended_no_ready_check "ws-2" "hi" (.parsed .null) (by decide)

/-- C2 counterexample: when the external invocation fails, the raw error
message — here one containing a filesystem path — appears verbatim in the
`error` field of the payload the endpoint returns to the end user via
`res.json(result)`, so the underlying error text is surfaced after all. -/
theorem c2_counterexample :
    ((chatEndpoint "ws-3" (some "hi")
        (.failed "ENOENT: no such file, open /app/secret/creds.json")).1.body).getField
        "error" =
      some (.str "ENOENT: no such file, open /app/secret/creds.json") := by
  rfl

/-- C2 (amended): every failed dispatch yields a 200 response whose payload
has success=false and the canned text in its `response` field; however the
underlying error text is not withheld from the user-facing response — it is
returned verbatim in the payload's `error` field. -/
theorem c2_amended_failure_payload (wid m e : String) (h : m ≠ "") :
    (chatEndpoint wid (some m) (.failed e)).1.status = 200 ∧
    (chatEndpoint wid (some m) (.failed e)).1.body.getField "success" =
      some (.bool false) ∧
    (chatEndpoint wid (some m) (.failed e)).1.body.getField "response" =
      some (.str cannedErrorResponse) ∧
    (chatEndpoint wid (some m) (.failed e)).1.body.getField "error" =
      some (.str e) := by
  have hempty : m.isEmpty = false := isEmpty_false_of_ne h
  refine ⟨?_, ?_, ?_, ?_⟩ <;>
    simp [chatEndpoint, jsFalsy, hempty, executeInWorkspace, JVal.getField,
      lookupLast]

/-- C2 witness: the amended claim at a concrete failed dispatch. -/
theorem c2_amended_witness :
    (chatEndpoint "ws-5" (some "hello") (.failed "exit code 1")).1.status = 200 ∧
    (chatEndpoint "ws-5" (some "hello") (.failed "exit code 1")).1.body.getField
        "success" = some (.bool false) ∧
    (chatEndpoint "ws-5" (some "hello") (.failed "exit code 1")).1.body.getField
        "response" = some (.str cannedErrorResponse) ∧
    (chatEndpoint "ws-5" (some "hello") (.failed "exit code 1")).1.body.getField
        "error" = some (.str "exit code 1") :=
  c2_amended_failure_payload "ws-5" "hello" "exit code 1" (by decide)

/-- C3: for every inbound WebSocket chat frame the server sends exactly, in
this order, `{type:'typing', status:true}`, then the `{type:'response', ...}`
frame carrying the dispatch result and timestamp, then
`{type:'typing', status:false}` — and nothing else; every inbound frame on
which parsing throws is answered with the single frame
`{type:'error', error}`. -/
theorem c3_ws_protocol :
    (∀ (wid msg : String) (ex : ChatExec) (ts : String),
      wsMessageHandler (.chat wid msg) ex ts =
        ([.typing true, .response (executeInWorkspace wid msg ex).2 ts,
          .typing false],
         [chatCommand wid msg])) ∧
    (∀ (e : String) (ex : ChatExec) (ts : String),
      wsMessageHandler (.malformed e) ex ts = ([.error e], [])) :=
  ⟨fun _ _ _ _ => rfl, fun _ _ _ => rfl⟩

/-- C4 counterexample: with a successful repository creation and a failed
container creation, the server — which keeps no workspace records at all —
answers 500 with only success and error fields: no record or response field
retains `state=failed` or the repository URL, contrary to the claim. -/
theorem c4_counterexample :
    (createEndpoint (some "alice") (some "app") 1700000000000
        (.ok "https://github.com/org/ws" "https://github.com/org/ws.git")
        (.err "devpod up failed")).1.status = 500 ∧
    (createEndpoint (some "alice") (some "app") 1700000000000
        (.ok "https://github.com/org/ws" "https://github.com/org/ws.git")
        (.err "devpod up failed")).1.body.getField "repositoryUrl" = none ∧
    (createEndpoint (some "alice") (some "app") 1700000000000
        (.ok "https://github.com/org/ws" "https://github.com/org/ws.git")
        (.err "devpod up failed")).1.body.getField "state" = none :=
  ⟨rfl, rfl, rfl⟩

/-- C4 (amended): when repository provisioning succeeds and container
provisioning then fails, the create endpoint answers 500 with success=false
and the container error message; the repository-creation call was made and
is not rolled back (the external calls are exactly the repository creation
followed by the `devpod up` attempt — no deletion), but no workspace record
exists and the response retains neither a state nor the repository URL. -/
theorem c4_amended_partial_failure (u p : String) (nowMs : Nat)
    (htmlUrl cloneUrl emsg : String) (hu : u ≠ "") (hp : p ≠ "") :
    (createEndpoint (some u) (some p) nowMs (.ok htmlUrl cloneUrl)
        (.err emsg)).1.status = 500 ∧
    (createEndpoint (some u) (some p) nowMs (.ok htmlUrl cloneUrl)
        (.err emsg)).1.body.getField "success" = some (.bool false) ∧
    (createEndpoint (some u) (some p) nowMs (.ok htmlUrl cloneUrl)
        (.err emsg)).1.body.getField "error" = some (.str emsg) ∧
    (createEndpoint (some u) (some p) nowMs (.ok htmlUrl cloneUrl)
        (.err emsg)).1.body.getField "repositoryUrl" = none ∧
    (createEndpoint (some u) (some p) nowMs (.ok htmlUrl cloneUrl)
        (.err emsg)).2 =
      [.githubCreateRepo (genWorkspaceId u nowMs),
       .exec (devpodUpCommand (genWorkspaceId u nowMs) cloneUrl)] := by
  have hu' : u.isEmpty = false := isEmpty_false_of_ne hu
  have hp' : p.isEmpty = false := isEmpty_false_of_ne hp
  refine ⟨?_, ?_, ?_, ?_, ?_⟩ <;>
    simp [createEndpoint, jsFalsy, hu', hp', DevPodManager.createWorkspace,
      jsTruthyField, JVal.getField, lookupLast, errorFieldMessage]

/-- C4 witness: the amended claim at a concrete partially-failing creation. -/
theorem c4_amended_witness :
    (createEndpoint (some "bob") (some "shop") 1700000000001
        (.ok "https://x/r" "https://x/r.git") (.err "no docker")).1.status = 500 ∧
    (createEndpoint (some "bob") (some "shop") 1700000000001
        (.ok "https://x/r" "https://x/r.git") (.err "no docker")).1.body.getField
        "success" = some (.bool false) ∧
    (createEndpoint (some "bob") (some "shop") 1700000000001
        (.ok "https://x/r" "https://x/r.git") (.err "no docker")).1.body.getField
        "error" = some (.str "no docker") ∧
    (createEndpoint (some "bob") (some "shop") 1700000000001
        (.ok "https://x/r" "https://x/r.git") (.err "no docker")).1.body.getField
        "repositoryUrl" = none ∧
    (createEndpoint (some "bob") (some "shop") 1700000000001
        (.ok "https://x/r" "https://x/r.git") (.err "no docker")).2 =
      [.githubCreateRepo (genWorkspaceId "bob" 1700000000001),
       .exec (devpodUpCommand (genWorkspaceId "bob" 1700000000001)
          "https://x/r.git")] :=
  c4_amended_partial_failure "bob" "shop" 1700000000001 "https://x/r"
    "https://x/r.git" "no docker" (by decide) (by decide)

/-- C5: dispatch-level failures never escape the chat endpoint as a thrown
error or transport error — for every chat request with a non-empty message
the endpoint answers at status 200 (`executeInWorkspace` catches every
dispatch failure internally), and when the dispatch failed the payload's
success field is false. -/
theorem c5_dispatch_errors_contained (wid m : String) (ex : ChatExec)
    (h : m ≠ "") :
    (chatEndpoint wid (some m) ex).1.status = 200 ∧
    (∀ e, ex = .failed e →
      (chatEndpoint wid (some m) ex).1.body.getField "success" =
        some (.bool false)) := by
  have hempty : m.isEmpty = false := isEmpty_false_of_ne h
  constructor
  · simp [chatEndpoint, jsFalsy, hempty]
  · rintro e rfl
    simp [chatEndpoint, jsFalsy, hempty, executeInWorkspace, JVal.getField,
      lookupLast]

/-- C5 witness: a concrete failed dispatch is still answered 200 with a
success=false payload. -/
theorem c5_witness :
    (chatEndpoint "ws-1" (some "hello") (.failed "boom")).1.status = 200 ∧
    (∀ e, ChatExec.failed "boom" = .failed e →
      (chatEndpoint "ws-1" (some "hello") (.failed "boom")).1.body.getField
          "success" = some (.bool false)) :=
  c5_dispatch_errors_contained "ws-1" "hello" (.failed "boom") (by decide)

/-- C6 counterexample: two distinct creation calls (distinct arrival
indices) from the same user observing the same `Date.now()` millisecond
generate the same workspace id — the generated id is a function of the user
id and the millisecond only, so ids are not unique across such calls. -/
theorem c6_counterexample :
    (⟨0, "alice", 1700000000000⟩ : CreateCall) ≠ ⟨1, "alice", 1700000000000⟩ ∧
    CreateCall.workspaceId ⟨0, "alice", 1700000000000⟩ =
      CreateCall.workspaceId ⟨1, "alice", 1700000000000⟩ :=
  ⟨by decide, rfl⟩

/-- C6 (amended): for a fixed user, two creation calls generate the same
workspace id exactly when they observe the same `Date.now()` millisecond —
ids are distinct across distinct milliseconds, but two concurrent calls for
the same user within one millisecond collide. -/
theorem c6_amended_id_collision (u : String) (t1 t2 : Nat) :
    genWorkspaceId u t1 = genWorkspaceId u t2 ↔ t1 = t2 := by
  constructor
  · intro h
    have hd := congrArg String.data h
    simp only [genWorkspaceId, String.data_append] at hd
    have h2 : natDigits t1 = natDigits t2 := List.append_cancel_left hd
    have h3 := congrArg digitsVal h2
    rwa [natDigits_val, natDigits_val] at h3
  · rintro rfl
    rfl

/-- C7 counterexample: a status query for an id absent from the
collaborator's list is answered 200 with body `{status:'not_found'}` — an
absent id does yield a 200 response, never a 404. -/
theorem c7_counterexample :
    (statusEndpoint "workspace-alice-1" (.arr [])).status = 200 ∧
    (statusEndpoint "workspace-alice-1" (.arr [])).body =
      .obj [("status", .str "not_found")] :=
  ⟨rfl, rfl⟩

/-- C7 (amended): the status endpoint always answers at transport status 200
(`res.json(status)` with no `res.status` call) — for an id absent from the
listing the body is `{status:'not_found'}`, not a 404. -/
theorem c7_amended_always_200 (wid : String) (out : ListOutcome) :
    (statusEndpoint wid out).status = 200 ∧
    (∀ ws, out = .arr ws → ws.find? (idMatches wid) = none →
      (statusEndpoint wid out).body = .obj [("status", .str "not_found")]) := by
  refine ⟨rfl, ?_⟩
  rintro ws rfl hfind
  simp [statusEndpoint, getWorkspaceStatus, hfind]

/-- C7 witness: the amended claim at a concrete absent id. -/
theorem c7_amended_witness :
    (statusEndpoint "ws-4" (.arr [])).status = 200 ∧
    (statusEndpoint "ws-4" (.arr [])).body =
      .obj [("status", .str "not_found")] :=
  ⟨(c7_amended_always_200 "ws-4" (.arr [])).1,
   (c7_amended_always_200 "ws-4" (.arr [])).2 [] rfl rfl⟩

/-- C8 counterexample: the main server's health body carries
`status:'healthy'`, which differs from the `"ok"` the claim requires. -/
theorem c8_counterexample :
    (healthEndpoint "2024-01-01T00:00:00.000Z").body.getField "status" =
      some (.str "healthy") ∧
    "healthy" ≠ "ok" :=
  ⟨rfl, by decide⟩

/-- C8 (amended): every GET /health request is answered 200 with a timestamp
field; the simple server's status field equals "ok", while the main server's
equals "healthy". -/
theorem c8_amended_health (ts : String) :
    (healthEndpoint ts).status = 200 ∧
    (healthEndpoint ts).body.getField "status" = some (.str "healthy") ∧
    (healthEndpoint ts).body.getField "timestamp" = some (.str ts) ∧
    (healthEndpointSimple ts).status = 200 ∧
    (healthEndpointSimple ts).body.getField "status" = some (.str "ok") ∧
    (healthEndpointSimple ts).body.getField "timestamp" = some (.str ts) :=
  ⟨rfl, rfl, rfl, rfl, rfl, rfl⟩

/-- C9: a create request whose body lacks userId or lacks projectName is
answered 400 with success=false before any external collaborator is invoked
— no repository creation and no container creation is attempted. -/
theorem c9_create_validation (userId projectName : Option String)
    (nowMs : Nat) (repo : RepoOutcome) (ce : ExecResult)
    (h : userId = none ∨ projectName = none) :
    (createEndpoint userId projectName nowMs repo ce).1.status = 400 ∧
    (createEndpoint userId projectName nowMs repo ce).1.body.getField
        "success" = some (.bool false) ∧
    (createEndpoint userId projectName nowMs repo ce).2 = [] := by
  have hf : (jsFalsy userId || jsFalsy projectName) = true := by
    rcases h with h | h <;> subst h <;> simp [jsFalsy]
  refine ⟨?_, ?_, ?_⟩ <;> simp [createEndpoint, hf, JVal.getField, lookupLast]

/-- C9 witness: a concrete create request lacking its userId. -/
theorem c9_witness :
    (createEndpoint none (some "proj") 1700000000002 (.ok "h" "c")
        (.ok "out")).1.status = 400 ∧
    (createEndpoint none (some "proj") 1700000000002 (.ok "h" "c")
        (.ok "out")).1.body.getField "success" = some (.bool false) ∧
    (createEndpoint none (some "proj") 1700000000002 (.ok "h" "c")
        (.ok "out")).2 = [] :=
  c9_create_validation none (some "proj") 1700000000002 (.ok "h" "c")
    (.ok "out") (Or.inl rfl)

/-- C10: for every user message, the shell command built by
`executeInWorkspace` embeds the message inside a single-quoted argument with
every single-quote character replaced by the four-character sequence `'\''`,
and scanning that quoted argument as a shell word recovers exactly the
original message — the embedded message can never terminate the quoted
argument early. -/
theorem c10_message_quoting (wid msg : String) :
    chatCommand wid msg =
      "devpod ssh " ++ wid ++
        " --command \"cd /workspace && python3 .devcontainer/claude-handler.py '" ++
        escapeMessage msg ++ "'\"" ∧
    (escapeMessage msg).data = (msg.data.map escapeQuoteChar).flatten ∧
    parseWord .plain ('\'' :: ((escapeMessage msg).data ++ ['\''])) =
      some msg.data :=
  ⟨rfl, rfl, parseWord_quoted_escape msg.data⟩

end AIDev
